import Mathlib

/-!
Verification of the Agent4Science scraper (src/code/main.py) against its
natural-language specification. The development shallowly embeds the
URL-handling, table-parsing and artifact-fetching logic of the scraper in
Lean: pure helpers of the Python standard library (urllib.parse.urlsplit,
urlparse, parse_qs, unquote, pathlib suffix) are modelled as executable
functions on character lists, the scraper's own functions are translated
definition by definition, and the stateful download steps are modelled as
functions from an explicit environment (network and filesystem outcomes)
to a result, an event trace and a final file state.
-/

namespace Agent4Science

/-! ## Python string primitives, modelled on lists of characters -/

/-- Models the Python substring operator on str: decides whether
the needle occurs contiguously in the haystack. -/
def containsSubL (hay needle : List Char) : Bool :=
  needle.isPrefixOf hay ||
    match hay with
    | [] => false
    | _ :: t => containsSubL t needle

/-- Models the Python substring operator on String values. -/
def containsSub (hay needle : String) : Bool :=
  containsSubL hay.data needle.data

/-- Models Python str.lower restricted to ASCII letters (the scraper's
inputs of interest are ASCII; Unicode case folding is not modelled). -/
def pyLower (s : String) : String :=
  ⟨s.data.map Char.toLower⟩

/-- Models Python str.startswith. -/
def pyStartsWith (s pre : String) : Bool :=
  pre.data.isPrefixOf s.data

/-- Models Python str.endswith. -/
def pyEndsWith (s post : String) : Bool :=
  post.data.reverse.isPrefixOf s.data.reverse

/-- Models Python str.split with a one-character separator: the empty
string gives one empty piece, as in Python. -/
def pySplitChar (c : Char) : List Char → List (List Char)
  | [] => [[]]
  | x :: xs =>
    match pySplitChar c xs with
    | [] => [[]]
    | h :: t => if x = c then [] :: h :: t else (x :: h) :: t

/-- Models Python str.split(sep, 1) with a one-character separator:
the text before the first occurrence, and the rest when the separator
occurs at all. -/
def pySplitFirstChar (c : Char) : List Char → List Char × Option (List Char)
  | [] => ([], none)
  | x :: xs =>
    if x = c then ([], some xs)
    else
      let r := pySplitFirstChar c xs
      (x :: r.1, r.2)

/-- Models Python str.split(sep)[-1] for a one-character separator: the
text after the last occurrence (the whole string when there is none). -/
def afterLastChar (c : Char) (s : List Char) : List Char :=
  (s.reverse.takeWhile (fun x => x ≠ c)).reverse

/-- Models Python str.replace(".git", "") exactly: every non-overlapping
occurrence is removed, scanning left to right. -/
def replaceDotGit : List Char → List Char
  | '.' :: 'g' :: 'i' :: 't' :: rest => replaceDotGit rest
  | x :: rest => x :: replaceDotGit rest
  | [] => []

/-- Characters Python str.strip() removes in the ASCII range
(space, tab, newline, carriage return, vertical tab, form feed and the
file/group/record/unit separators). -/
def pyIsSpace (ch : Char) : Bool :=
  ch.toNat = 32 || (9 ≤ ch.toNat && ch.toNat ≤ 13) || (28 ≤ ch.toNat && ch.toNat ≤ 31)

/-- Models Python str.strip() on ASCII input: whitespace removed from
both ends. -/
def pyStrip (s : String) : String :=
  ⟨((s.data.dropWhile pyIsSpace).reverse.dropWhile pyIsSpace).reverse⟩

/-- Models str.join("/") over a list of pieces. -/
def joinSlash : List String → String
  | [] => ""
  | [s] => s
  | s :: rest => s ++ "/" ++ joinSlash rest

/-! ## Percent decoding: urllib.parse.unquote with utf-8 / replace -/

/-- Decides whether a character is a hexadecimal digit, as the table of
urllib.parse accepts (both cases). -/
def isHexDigit (ch : Char) : Bool :=
  ch.isDigit || ('a' ≤ ch && ch ≤ 'f') || ('A' ≤ ch && ch ≤ 'F')

/-- Value of a hexadecimal digit. -/
def hexVal (ch : Char) : Nat :=
  if ch.isDigit then ch.toNat - 48
  else if 'a' ≤ ch then ch.toNat - 87
  else ch.toNat - 55

/-- Concatenation of a list of lists (str.join of byte pieces). -/
def listJoin : List (List α) → List α
  | [] => []
  | l :: ls => l ++ listJoin ls

/-- Models urllib.parse.unquote_to_bytes on an ASCII run: the text is cut
at every percent sign, a piece opening with two hexadecimal digits yields
the encoded byte, any other piece keeps its percent sign. -/
def pctDecodeBytes (s : List Char) : List Nat :=
  match pySplitChar '%' s with
  | [] => []
  | first :: items =>
    first.map Char.toNat ++
      listJoin (items.map (fun item =>
        match item with
        | a :: b :: rest =>
          if isHexDigit a && isHexDigit b then
            (hexVal a * 16 + hexVal b) :: rest.map Char.toNat
          else 37 :: item.map Char.toNat
        | _ => 37 :: item.map Char.toNat))

/-- Models bytes.decode("utf-8", errors="replace") as CPython performs it:
well-formed sequences decode to their scalar value and each maximal invalid
subpart becomes one U+FFFD replacement character. -/
def utf8DecodeReplace : List Nat → List Char
  | [] => []
  | b :: rest =>
    if b < 128 then Char.ofNat b :: utf8DecodeReplace rest
    else if 194 ≤ b && b ≤ 223 then
      match rest with
      | [] => ['�']
      | c1 :: rest1 =>
        if 128 ≤ c1 && c1 ≤ 191 then
          Char.ofNat ((b - 192) * 64 + (c1 - 128)) :: utf8DecodeReplace rest1
        else '�' :: utf8DecodeReplace (c1 :: rest1)
    else if 224 ≤ b && b ≤ 239 then
      match rest with
      | [] => ['�']
      | c1 :: rest1 =>
        if (if b = 224 then 160 else 128) ≤ c1 && c1 ≤ (if b = 237 then 159 else 191) then
          match rest1 with
          | [] => ['�']
          | c2 :: rest2 =>
            if 128 ≤ c2 && c2 ≤ 191 then
              Char.ofNat ((b - 224) * 4096 + (c1 - 128) * 64 + (c2 - 128)) ::
                utf8DecodeReplace rest2
            else '�' :: utf8DecodeReplace (c2 :: rest2)
        else '�' :: utf8DecodeReplace (c1 :: rest1)
    else if 240 ≤ b && b ≤ 244 then
      match rest with
      | [] => ['�']
      | c1 :: rest1 =>
        if (if b = 240 then 144 else 128) ≤ c1 && c1 ≤ (if b = 244 then 143 else 191) then
          match rest1 with
          | [] => ['�']
          | c2 :: rest2 =>
            if 128 ≤ c2 && c2 ≤ 191 then
              match rest2 with
              | [] => ['�']
              | c3 :: rest3 =>
                if 128 ≤ c3 && c3 ≤ 191 then
                  Char.ofNat ((b - 240) * 262144 + (c1 - 128) * 4096 +
                    (c2 - 128) * 64 + (c3 - 128)) :: utf8DecodeReplace rest3
                else '�' :: utf8DecodeReplace (c3 :: rest3)
            else '�' :: utf8DecodeReplace (c2 :: rest2)
        else '�' :: utf8DecodeReplace (c1 :: rest1)
    else '�' :: utf8DecodeReplace rest

/-- Splits a string into maximal runs of ASCII and non-ASCII characters,
tagged with whether the run is ASCII, as the regular expression split in
urllib.parse.unquote does. -/
def splitAsciiRuns : List Char → List (Bool × List Char)
  | [] => []
  | ch :: rest =>
    match splitAsciiRuns rest with
    | [] => [(ch.toNat ≤ 127, [ch])]
    | (b, run) :: t =>
      if b = (ch.toNat ≤ 127) then (b, ch :: run) :: t
      else (ch.toNat ≤ 127, [ch]) :: (b, run) :: t

/-- Models urllib.parse.unquote(s, encoding="utf-8", errors="replace"):
percent escapes inside each maximal ASCII run are decoded to bytes and the
bytes decoded as UTF-8 with replacement; non-ASCII characters pass through
untouched and separate the byte groups. -/
def pyUnquote (s : List Char) : List Char :=
  if !s.any (fun ch => ch = '%') then s
  else
    listJoin ((splitAsciiRuns s).map (fun r =>
      if r.1 then utf8DecodeReplace (pctDecodeBytes r.2) else r.2))

/-- Models str.replace("+", " "), the first step of unquote_plus as
parse_qsl applies it to names and values. -/
def plusToSpace (s : List Char) : List Char :=
  s.map (fun ch => if ch = '+' then ' ' else ch)

/-! ## urllib.parse.urlsplit / urlparse / parse_qs -/

/-- Result of urlsplit/urlparse: the six components of a URL. -/
structure UrlParts where
  scheme : String
  netloc : String
  path : String
  params : String
  query : String
  fragment : String
deriving DecidableEq

/-- Characters allowed in a scheme by urllib.parse (letters, digits and
plus, minus, dot). -/
def schemeChar (ch : Char) : Bool :=
  ch.isAlpha || ch.isDigit || ch = '+' || ch = '-' || ch = '.'

/-- Scheme detection of urlsplit: a colon at a positive index whose whole
prefix is scheme characters opening with an ASCII letter cuts off the
lowercased scheme; anything else leaves the scheme empty. -/
def splitScheme (url : List Char) : List Char × List Char :=
  match pySplitFirstChar ':' url with
  | (before, some rest) =>
    match before with
    | [] => ([], url)
    | c0 :: _ =>
      if c0.isAlpha && before.all schemeChar then (before.map Char.toLower, rest)
      else ([], url)
  | (_, none) => ([], url)

/-- Netloc detection of urlsplit: after a double slash the netloc runs to
the first slash, question mark or hash sign. -/
def splitNetloc (rest : List Char) : List Char × List Char :=
  match rest with
  | '/' :: '/' :: r =>
    (r.takeWhile (fun ch => ch ≠ '/' && ch ≠ '?' && ch ≠ '#'),
     r.dropWhile (fun ch => ch ≠ '/' && ch ≠ '?' && ch ≠ '#'))
  | r => ([], r)

/-- Models urllib.parse.urlsplit of CPython: leading control characters
and spaces are stripped, tab, carriage return and newline removed
everywhere, then scheme, netloc, fragment and query are cut off in this
order. The ValueError validations of bracketed hosts and the NFKC netloc
check (which only reject, never alter, a parse) are not modelled. -/
def pyUrlsplit (url : String) : UrlParts :=
  let u0 := url.data.dropWhile (fun ch => ch.toNat ≤ 32)
  let u1 := u0.filter (fun ch => ch ≠ '\t' && ch ≠ '\r' && ch ≠ '\n')
  let s := splitScheme u1
  let n := splitNetloc s.2
  let f := pySplitFirstChar '#' n.2
  let q := pySplitFirstChar '?' f.1
  ⟨⟨s.1⟩, ⟨n.1⟩, ⟨q.1⟩, "", ⟨q.2.getD []⟩, ⟨f.2.getD []⟩⟩

/-- Schemes for which urlparse separates the params component. -/
def uses_params : List String :=
  ["", "ftp", "hdl", "prospero", "http", "imap", "https", "shttp", "rtsp",
   "rtspu", "sip", "sips", "mms", "sftp", "tel"]

/-- Models the params split of urlparse: when the path holds a slash the
semicolon is looked for from the last slash on, otherwise from the start;
no semicolon there leaves the path whole. -/
def splitParams (path : List Char) : List Char × List Char :=
  if path.any (fun ch => ch = '/') then
    let pre := (path.reverse.dropWhile (fun ch => ch ≠ '/')).reverse
    let post := (path.reverse.takeWhile (fun ch => ch ≠ '/')).reverse
    match pySplitFirstChar ';' post with
    | (a, some b) => (pre ++ a, b)
    | (_, none) => (path, [])
  else
    match pySplitFirstChar ';' path with
    | (a, some b) => (a, b)
    | (a, none) => (a, [])

/-- Models urllib.parse.urlparse: urlsplit, then the params component is
cut from the path when the scheme uses params and the path holds a
semicolon. -/
def pyUrlparse (url : String) : UrlParts :=
  let s := pyUrlsplit url
  if uses_params.contains s.scheme && s.path.data.any (fun ch => ch = ';') then
    let p := splitParams s.path.data
    { s with path := ⟨p.1⟩, params := ⟨p.2⟩ }
  else s

/-- Models urllib.parse.parse_qsl with its defaults (keep_blank_values
False, separator the ampersand): empty pairs are skipped, a pair without
an equal sign or with an empty value is dropped, names and values go
through plus-to-space and percent decoding. -/
def parse_qsl (qs : List Char) : List (List Char × List Char) :=
  if qs = [] then []
  else
    (pySplitChar '&' qs).filterMap (fun nv =>
      if nv = [] then none
      else
        match pySplitFirstChar '=' nv with
        | (_, none) => none
        | (name, some value) =>
          if value = [] then none
          else some (pyUnquote (plusToSpace name), pyUnquote (plusToSpace value)))

/-- Models parse_qs(query).get("id", [""])[0] as the scraper uses it: the
value of the first pair named id, or the empty string. -/
def qs_get_id (query : String) : String :=
  match (parse_qsl query.data).find? (fun p => p.1 = "id".data) with
  | some p => ⟨p.2⟩
  | none => ""

/-! ## The scraper's data model (METADATA_FIELDS, HEADER_MAP) -/

/-- The fourteen metadata fields of METADATA_FIELDS in main.py. -/
inductive Field
  | forum_id
  | title
  | authors
  | status
  | primary_topic
  | secondary_topic
  | human_review_score
  | ai_reviewer_1_score
  | ai_reviewer_2_score
  | ai_reviewer_3_score
  | hypothesis_development_label
  | openreview_link
  | supplementary_link
  | code_link
deriving DecidableEq

/-- One parsed submission record: the dict keyed by METADATA_FIELDS that
_parse_table builds, every field a string, empty when absent. -/
structure Record where
  forum_id : String
  title : String
  authors : String
  status : String
  primary_topic : String
  secondary_topic : String
  human_review_score : String
  ai_reviewer_1_score : String
  ai_reviewer_2_score : String
  ai_reviewer_3_score : String
  hypothesis_development_label : String
  openreview_link : String
  supplementary_link : String
  code_link : String
deriving DecidableEq

/-- The record with every field empty, as each row starts in _parse_table. -/
def empty_record : Record :=
  ⟨"", "", "", "", "", "", "", "", "", "", "", "", "", ""⟩

/-- Assignment record[target] = value of _parse_table. -/
def set_field (r : Record) (f : Field) (v : String) : Record :=
  match f with
  | .forum_id => { r with forum_id := v }
  | .title => { r with title := v }
  | .authors => { r with authors := v }
  | .status => { r with status := v }
  | .primary_topic => { r with primary_topic := v }
  | .secondary_topic => { r with secondary_topic := v }
  | .human_review_score => { r with human_review_score := v }
  | .ai_reviewer_1_score => { r with ai_reviewer_1_score := v }
  | .ai_reviewer_2_score => { r with ai_reviewer_2_score := v }
  | .ai_reviewer_3_score => { r with ai_reviewer_3_score := v }
  | .hypothesis_development_label => { r with hypothesis_development_label := v }
  | .openreview_link => { r with openreview_link := v }
  | .supplementary_link => { r with supplementary_link := v }
  | .code_link => { r with code_link := v }

/-- The condition not any(record.values()) of _parse_table: every field of
the row's record is empty. -/
def record_all_empty (r : Record) : Prop :=
  r.forum_id = "" ∧ r.title = "" ∧ r.authors = "" ∧ r.status = "" ∧
  r.primary_topic = "" ∧ r.secondary_topic = "" ∧ r.human_review_score = "" ∧
  r.ai_reviewer_1_score = "" ∧ r.ai_reviewer_2_score = "" ∧
  r.ai_reviewer_3_score = "" ∧ r.hypothesis_development_label = "" ∧
  r.openreview_link = "" ∧ r.supplementary_link = "" ∧ r.code_link = ""

instance (r : Record) : Decidable (record_all_empty r) := by
  unfold record_all_empty; infer_instance

/-- HEADER_MAP of main.py: normalized header aliases and their fields. -/
def HEADER_MAP : List (String × Field) :=
  [("forumid", .forum_id),
   ("forum", .forum_id),
   ("title", .title),
   ("authors", .authors),
   ("status", .status),
   ("primarytopic", .primary_topic),
   ("secondarytopic", .secondary_topic),
   ("humanreviewscore", .human_review_score),
   ("aireviewer1score", .ai_reviewer_1_score),
   ("aireviewer2score", .ai_reviewer_2_score),
   ("aireviewer3score", .ai_reviewer_3_score),
   ("hypothesisdevelopmentlabel", .hypothesis_development_label),
   ("openreviewlink", .openreview_link),
   ("openreview", .openreview_link),
   ("supplementarylink", .supplementary_link),
   ("supplementary", .supplementary_link),
   ("codelink", .code_link),
   ("code", .code_link)]

/-- Header normalization of _map_header: lower-case the header, keep only
alphanumeric characters (ASCII model of str.lower and str.isalnum). -/
def normalize_header (header : String) : String :=
  ⟨(header.data.map Char.toLower).filter Char.isAlphanum⟩

/-- Dictionary lookup HEADER_MAP.get(normalized): the value of the first
matching key, none when absent (a dict has unique keys, so the first match
is the match). -/
def header_lookup (normalized : String) : Option Field :=
  (HEADER_MAP.find? (fun p => p.1 = normalized)).map (fun p => p.2)

/-- _map_header of main.py. -/
def map_header (header : String) : Option Field :=
  header_lookup (normalize_header header)

/-! ## Table parsing (_parse_table, _extract_cell_value, _derive_forum_id) -/

/-- One table cell as BeautifulSoup hands it to _extract_cell_value: the
href of its first anchor carrying one, when any, and its visible text. -/
structure Cell where
  anchorHref : Option String
  text : String
deriving DecidableEq

/-- The link-bearing fields of _extract_cell_value. -/
def link_fields : List Field :=
  [.openreview_link, .supplementary_link, .code_link]

/-- _extract_cell_value of main.py: a link field prefers the stripped href
of an anchor with a non-empty href, every other case takes the cell
text. -/
def extract_cell_value (cell : Cell) (target : Field) : String :=
  if link_fields.contains target then
    match cell.anchorHref with
    | some href => if href ≠ "" then pyStrip href else cell.text
    | none => cell.text
  else cell.text

/-- _derive_forum_id of main.py: the id query parameter of the parsed
link (the path-segment fallback branch in the source is a no-op: its body
is pass). -/
def derive_forum_id (openreview_link : String) : String :=
  qs_get_id (pyUrlparse openreview_link).query

/-- The cell loop of _parse_table for one row: cell idx goes to
column_targets[idx] when that is within range and maps to a field. -/
def build_record (targets : List (Option Field)) (cells : List Cell) : Record :=
  cells.enum.foldl
    (fun r ic =>
      match targets.getD ic.1 none with
      | none => r
      | some t => set_field r t (extract_cell_value ic.2 t))
    empty_record

/-- The per-row body of _parse_table: a row without cells is skipped, the
record is built, a row whose record is all empty or has both forum_id and
openreview_link empty is skipped, and a missing forum_id is derived from a
present openreview_link before the record is kept. -/
def process_row (targets : List (Option Field)) (cells : List Cell) : Option Record :=
  if cells = [] then none
  else if record_all_empty (build_record targets cells) ∨
      ((build_record targets cells).forum_id = "" ∧
        (build_record targets cells).openreview_link = "") then none
  else if (build_record targets cells).forum_id = "" ∧
      (build_record targets cells).openreview_link ≠ "" then
    some (set_field (build_record targets cells) .forum_id
      (derive_forum_id (build_record targets cells).openreview_link))
  else some (build_record targets cells)

/-- _parse_table of main.py over the extracted header texts and body rows:
headers map to column targets, each body row is admitted or dropped by
process_row. -/
def parse_table (headers : List String) (rows : List (List Cell)) : List Record :=
  rows.filterMap (process_row (headers.map map_header))

/-! ## Link deduplication (_urls_are_same_file) -/

/-- _urls_are_same_file of main.py: false when either URL is empty;
same when both paths hold an attachment segment and both id query
parameters are non-empty and equal; otherwise same exactly when the
netloc-plus-path strings coincide (the attachment branch falls through to
that comparison when the ids do not settle it). -/
def urls_are_same_file (url1 url2 : String) : Bool :=
  if url1 = "" ∨ url2 = "" then false
  else if containsSub (pyUrlparse url1).path "attachment" = true ∧
          containsSub (pyUrlparse url2).path "attachment" = true ∧
          qs_get_id (pyUrlparse url1).query ≠ "" ∧
          qs_get_id (pyUrlparse url2).query ≠ "" ∧
          qs_get_id (pyUrlparse url1).query = qs_get_id (pyUrlparse url2).query then
    true
  else if (pyUrlparse url1).netloc ++ (pyUrlparse url1).path =
          (pyUrlparse url2).netloc ++ (pyUrlparse url2).path then
    true
  else false

/-! ## Repository link normalization (_normalize_github_repo_url) -/

/-- The owner/repo pieces the SSH branch of _normalize_github_repo_url
computes: url.split(":")[-1].replace(".git", "").split("/"); empty when
the url holds no colon (that branch then returns None). -/
def ssh_repo_parts (url : String) : List String :=
  if containsSub url ":" = true then
    (pySplitChar '/' (replaceDotGit (afterLastChar ':' url.data))).map
      (fun l => (⟨l⟩ : String))
  else []

/-- The parse the non-SSH branch of _normalize_github_repo_url performs:
urlparse of the url, prefixed with https:// when it has no scheme
separator. -/
def norm_parsed (url : String) : UrlParts :=
  pyUrlparse (if containsSub url "://" = true then url else "https://" ++ url)

/-- The non-empty path segments of that parse:
[part for part in parsed.path.split("/") if part]. -/
def norm_path_parts (url : String) : List String :=
  ((pySplitChar '/' (norm_parsed url).path.data).map (fun l => (⟨l⟩ : String))).filter
    (fun p => p ≠ "")

/-- _normalize_github_repo_url of main.py: an empty url is not recognized;
a git@ or ssh://git@ url is rebuilt from everything after its last colon
with .git removed, whenever that splits into at least two slash pieces —
the host is never examined on this branch; any other url is parsed, its
lowercased netloc must contain github.com and its path must have at least
two non-empty segments, the first two becoming owner and repo (with .git
removed from repo). -/
def normalize_github_repo_url (url : String) : Option String :=
  if url = "" then none
  else if pyStartsWith url "git@" || pyStartsWith url "ssh://git@" then
    if containsSub url ":" = true then
      if 2 ≤ (ssh_repo_parts url).length then
        some ("https://github.com/" ++ joinSlash (ssh_repo_parts url))
      else none
    else none
  else if containsSub (pyLower (norm_parsed url).netloc) "github.com" = true then
    match norm_path_parts url with
    | owner :: repo :: _ =>
      some ("https://github.com/" ++ owner ++ "/" ++ (⟨replaceDotGit repo.data⟩ : String))
    | _ => none
  else none

/-! ## Supplementary link discovery and extension guessing -/

/-- One anchor of the forum page as _find_supplementary_link walks them:
its href attribute and its visible text. -/
structure Anchor where
  href : String
  text : String
deriving DecidableEq

/-- _find_supplementary_link of main.py: the href of the first anchor
whose lowercased href holds attachment and whose lowercased href plus
text holds supp. -/
def find_supplementary_link (anchors : List Anchor) : Option String :=
  (anchors.find? (fun a =>
    containsSub (pyLower a.href) "attachment" &&
      containsSub (pyLower a.href ++ pyLower a.text) "supp")).map (fun a => a.href)

/-- Models urllib.parse.urljoin("https://openreview.net", link) for the
reference shapes this scraper meets: an absolute URL is kept, an absolute
path is attached to the origin, any other reference is resolved against
the site root. -/
def urljoin_openreview (link : String) : String :=
  if containsSub link "://" = true then link
  else if pyStartsWith link "/" then "https://openreview.net" ++ link
  else "https://openreview.net/" ++ link

/-- Models pathlib.PurePosixPath(path).name for plain paths: the last
component that is neither empty nor a lone dot, or the empty string. -/
def path_name (path : String) : String :=
  match ((pySplitChar '/' path.data).filter
      (fun c => !c.isEmpty && c ≠ ['.'])).getLast? with
  | some l => ⟨l⟩
  | none => ""

/-- Models pathlib.PurePosixPath(path).suffix: the text from the last dot
of the name on, when that dot is neither the first nor the last
character. -/
def path_suffix (path : String) : String :=
  let name := path_name path
  if name.data.any (fun ch => ch = '.') then
    let after := afterLastChar '.' name.data
    let i := name.data.length - after.length - 1
    if 0 < i ∧ i < name.data.length - 1 then ⟨'.' :: after⟩ else ""
  else ""

/-- _guess_extension of main.py: tar.gz and tar endings are special-cased,
then the path suffix, then the generic .bin. -/
def guess_extension (url : String) : String :=
  if pyEndsWith (pyUrlparse url).path ".tar.gz" then ".tar.gz"
  else if pyEndsWith (pyUrlparse url).path ".tar" then ".tar"
  else if path_suffix (pyUrlparse url).path ≠ "" then path_suffix (pyUrlparse url).path
  else ".bin"

/-! ## Fetch steps as effect models

Each download step is modelled as a function from an environment
describing the outcomes of its external calls (network requests, the
streamed file write, the git subprocess) and the pre-existing file state
to the step's boolean outcome, the trace of network and write events it
performs, and the final state of its artifact on disk. The artifact state
is absent, incomplete (a partial write that a plain existence check would
mistake for a finished artifact) or complete. -/

/-- State of one artifact (a PDF, a supplementary file, a clone
directory) on disk. -/
inductive FileState
  | absent
  | incomplete
  | complete
deriving DecidableEq

/-- External events a fetch step can perform: a network request, a
streamed file write, a git clone subprocess. -/
inductive Ev
  | netGet
  | fileWrite
  | gitClone
deriving DecidableEq

/-- Outcomes of the external calls of a download step: whether the forum
page request succeeds, whether the artifact request succeeds, whether the
streamed write runs to completion, and whether a failed write leaves a
partially written file behind at the moment of the exception. -/
structure NetEnv where
  page_get_ok : Bool
  get_ok : Bool
  write_ok : Bool
  crash_left_file : Bool
deriving DecidableEq

/-- Result of one download step. -/
structure StepOut where
  ok : Bool
  events : List Ev
  file : FileState
deriving DecidableEq

/-- One note of the OpenReview record set: its content dict when the note
has one (none models a missing or non-dict content). -/
structure Note where
  content : Option (List (String × String))
deriving DecidableEq

/-- note.content.get("pdf") of _download_pdf. -/
def note_pdf (n : Note) : Option String :=
  match n.content with
  | none => none
  | some kvs => (kvs.find? (fun p => p.1 = "pdf")).map (fun p => p.2)

/-- The generator condition of _download_pdf: the note has a content dict
whose pdf entry is truthy (an empty content dict is itself falsy, and then
has no pdf entry either, so the one test covers both). -/
def pdf_truthy (n : Note) : Bool :=
  match note_pdf n with
  | some s => !(s = "")
  | none => false

/-- _download_pdf of main.py: no notes or no note with a pdf fail at once
with no events; an existing file short-circuits to success before any
network call; otherwise the PDF is requested and streamed to disk, a
failed request fails, and a write that errors mid-stream removes the
partial file before reporting failure. -/
def download_pdf (env : NetEnv) (pdf_exists : Bool) (notes : List Note) : StepOut :=
  let initial := if pdf_exists then FileState.complete else FileState.absent
  if notes = [] then ⟨false, [], initial⟩
  else
    match notes.find? pdf_truthy with
    | none => ⟨false, [], initial⟩
    | some n =>
      if (note_pdf n).getD "" = "" then ⟨false, [], initial⟩
      else if pdf_exists then ⟨true, [], FileState.complete⟩
      else if !env.get_ok then ⟨false, [.netGet], FileState.absent⟩
      else if env.write_ok then ⟨true, [.netGet, .fileWrite], FileState.complete⟩
      else
        let after_crash := if env.crash_left_file then FileState.incomplete else FileState.absent
        let cleaned := if after_crash ≠ FileState.absent then FileState.absent else after_crash
        ⟨false, [.netGet, .fileWrite], cleaned⟩

/-- _download_supplementary of main.py: an existing file matching the
forum-id glob short-circuits to success before any network call;
otherwise the forum page is fetched and scanned for a supplementary
attachment link, a link judged the same file as the code link is skipped,
the path existence re-check mirrors the glob (the guessed extension always
begins with a dot, so the glob saw any such file), and the download
streams to disk with the partial file removed when the write errors
mid-stream. -/
def download_supplementary (env : NetEnv) (supp_exists : Bool) (anchors : List Anchor)
    (code_link : String) : StepOut :=
  if supp_exists then ⟨true, [], FileState.complete⟩
  else if !env.page_get_ok then ⟨false, [.netGet], FileState.absent⟩
  else
    match find_supplementary_link anchors with
    | none => ⟨false, [.netGet], FileState.absent⟩
    | some attachment_link =>
      if code_link ≠ "" ∧ urls_are_same_file (urljoin_openreview attachment_link) code_link = true then
        ⟨false, [.netGet], FileState.absent⟩
      else if supp_exists then ⟨true, [.netGet], FileState.complete⟩
      else if !env.get_ok then ⟨false, [.netGet, .netGet], FileState.absent⟩
      else if env.write_ok then ⟨true, [.netGet, .netGet, .fileWrite], FileState.complete⟩
      else
        let after_crash := if env.crash_left_file then FileState.incomplete else FileState.absent
        let cleaned := if after_crash ≠ FileState.absent then FileState.absent else after_crash
        ⟨false, [.netGet, .netGet, .fileWrite], cleaned⟩

/-- Outcome of the git clone subprocess: success, a timeout or an error
exit (each recording whether a partial directory was left behind), or the
git executable missing (then nothing was created). -/
inductive CloneOutcome
  | ok
  | timeout (left_dir : Bool)
  | fail (left_dir : Bool)
  | git_missing
deriving DecidableEq

/-- _clone_code_repo of main.py: an empty code link, a code link equal to
a non-empty supplementary link, or an unrecognized repository link fail at
once with no events; an existing clone directory short-circuits to
success; otherwise git clone runs, and a timeout or error exit removes any
partial directory before reporting failure (a missing git executable
created nothing to remove). -/
def clone_code_repo (outcome : CloneOutcome) (dir_exists : Bool)
    (code_link supplementary_link : String) : StepOut :=
  let initial := if dir_exists then FileState.complete else FileState.absent
  if code_link = "" then ⟨false, [], initial⟩
  else if supplementary_link ≠ "" ∧ code_link = supplementary_link then ⟨false, [], initial⟩
  else
    match normalize_github_repo_url code_link with
    | none => ⟨false, [], initial⟩
    | some _ =>
      if dir_exists then ⟨true, [], FileState.complete⟩
      else
        match outcome with
        | .ok => ⟨true, [.gitClone], FileState.complete⟩
        | .timeout left_dir =>
          let after_crash := if left_dir then FileState.incomplete else FileState.absent
          ⟨false, [.gitClone],
            if after_crash ≠ FileState.absent then FileState.absent else after_crash⟩
        | .fail left_dir =>
          let after_crash := if left_dir then FileState.incomplete else FileState.absent
          ⟨false, [.gitClone],
            if after_crash ≠ FileState.absent then FileState.absent else after_crash⟩
        | .git_missing => ⟨false, [.gitClone], FileState.absent⟩

/-! ## Theorems for the claims -/

/-- C1 (counterexample): two attachment URLs on the same host and path but
with distinct non-empty id query parameters are still flagged as the same
file, because the attachment branch falls through to the netloc-plus-path
comparison — so the claimed equivalence "same object iff equal non-empty
ids" fails in its only-if direction. -/
theorem c1_counterexample :
    containsSub (pyUrlparse "https://openreview.net/attachment?id=A").path "attachment" = true ∧
    containsSub (pyUrlparse "https://openreview.net/attachment?id=B").path "attachment" = true ∧
    qs_get_id (pyUrlparse "https://openreview.net/attachment?id=A").query = "A" ∧
    qs_get_id (pyUrlparse "https://openreview.net/attachment?id=B").query = "B" ∧
    urls_are_same_file "https://openreview.net/attachment?id=A"
      "https://openreview.net/attachment?id=B" = true := by
  decide

/-- C4: the four recognized repository-link shapes — the SSH form, the
https form with and without the .git ending, and the bare host form — all
normalize to the canonical https://github.com/owner/repo. -/
theorem c4_canonical_shapes :
    normalize_github_repo_url "git@github.com:owner/repo.git" =
      some "https://github.com/owner/repo" ∧
    normalize_github_repo_url "https://github.com/owner/repo" =
      some "https://github.com/owner/repo" ∧
    normalize_github_repo_url "https://github.com/owner/repo.git" =
      some "https://github.com/owner/repo" ∧
    normalize_github_repo_url "github.com/owner/repo.git" =
      some "https://github.com/owner/repo" := by
  decide

/-- C9: forum-id extraction is deterministic — running it twice on the
same link yields the same id — and the documented example link yields
abc123. -/
theorem c9_derive_forum_id_idempotent :
    (∀ link : String, derive_forum_id link = derive_forum_id link) ∧
    derive_forum_id "https://openreview.net/forum?id=abc123&noteId=xyz" = "abc123" :=
  ⟨fun _ => rfl, by decide⟩

/-- C3 (counterexample): an SSH-style URL on a non-GitHub host — the text
git@gitlab.com:owner/repo.git holds no github.com at all — is not
rejected: the SSH branch never examines the host and rewrites it to
https://github.com/owner/repo. -/
theorem c3_counterexample :
    containsSub "git@gitlab.com:owner/repo.git" "github.com" = false ∧
    normalize_github_repo_url "git@gitlab.com:owner/repo.git" =
      some "https://github.com/owner/repo" := by
  decide

/-- C2 (counterexample): a row whose only datum is an openreview link
without an id query parameter is retained by _parse_table with an empty
forum_id — the parser derives the empty id and keeps the record rather
than dropping it. -/
theorem c2_counterexample :
    (parse_table ["OpenReview"] [[⟨some "https://openreview.net/foo", "link"⟩]]).map
      Record.forum_id = [""] := by
  decide

/-- C6 (counterexample): an already existing PDF artifact does not make
_download_pdf report success when the notes carry no downloadable PDF —
with an empty record set the step fails even though the file exists, so
existence alone does not imply a successful no-op. -/
theorem c6_counterexample :
    download_pdf ⟨true, true, true, false⟩ true [] = ⟨false, [], FileState.complete⟩ := by
  decide

/-- C8: header mapping is exactly normalization (ASCII lower-case, keep
alphanumerics) followed by the alias-table lookup; every alias of the
table maps to its documented canonical field; and any header whose
normalization is outside the table yields no mapping (a total function —
nothing is raised). -/
theorem c8_header_mapping :
    (∀ header : String, map_header header = header_lookup (normalize_header header)) ∧
    (map_header "forumid" = some Field.forum_id ∧
     map_header "forum" = some Field.forum_id ∧
     map_header "title" = some Field.title ∧
     map_header "authors" = some Field.authors ∧
     map_header "status" = some Field.status ∧
     map_header "primarytopic" = some Field.primary_topic ∧
     map_header "secondarytopic" = some Field.secondary_topic ∧
     map_header "humanreviewscore" = some Field.human_review_score ∧
     map_header "aireviewer1score" = some Field.ai_reviewer_1_score ∧
     map_header "aireviewer2score" = some Field.ai_reviewer_2_score ∧
     map_header "aireviewer3score" = some Field.ai_reviewer_3_score ∧
     map_header "hypothesisdevelopmentlabel" = some Field.hypothesis_development_label ∧
     map_header "openreviewlink" = some Field.openreview_link ∧
     map_header "openreview" = some Field.openreview_link ∧
     map_header "supplementarylink" = some Field.supplementary_link ∧
     map_header "supplementary" = some Field.supplementary_link ∧
     map_header "codelink" = some Field.code_link ∧
     map_header "code" = some Field.code_link) ∧
    (∀ header : String, header_lookup (normalize_header header) = none →
      map_header header = none) :=
  ⟨fun _ => rfl, by decide, fun _ hh => hh⟩

/-- C8 (witness): a header outside the alias table — here one with
punctuation and unknown words — maps to none via the theorem's third
conjunct. -/
theorem c8_header_mapping_witness :
    map_header "Not A Known Header!" = none :=
  c8_header_mapping.2.2 "Not A Known Header!" (by decide)

/-- C5: _parse_table is the row filter given by process_row, and a row is
excluded exactly when every mapped field of its record is empty or both
its forum_id and openreview_link are empty; every other row appears in the
result. -/
theorem c5_row_admission :
    (∀ (headers : List String) (rows : List (List Cell)),
      parse_table headers rows = rows.filterMap (process_row (headers.map map_header))) ∧
    (∀ (targets : List (Option Field)) (cells : List Cell),
      process_row targets cells = none ↔
        record_all_empty (build_record targets cells) ∨
          ((build_record targets cells).forum_id = "" ∧
            (build_record targets cells).openreview_link = "")) := by
  constructor
  · intro headers rows
    rfl
  · intro targets cells
    unfold process_row
    by_cases hcel : cells = []
    · subst hcel
      rw [if_pos rfl]
      have hb : build_record targets ([] : List Cell) = empty_record := rfl
      exact iff_of_true rfl (Or.inl (by rw [hb]; decide))
    · rw [if_neg hcel]
      by_cases hadm : record_all_empty (build_record targets cells) ∨
          ((build_record targets cells).forum_id = "" ∧
            (build_record targets cells).openreview_link = "")
      · rw [if_pos hadm]
        exact iff_of_true rfl hadm
      · rw [if_neg hadm]
        constructor
        · intro h
          by_cases hder : (build_record targets cells).forum_id = "" ∧
              (build_record targets cells).openreview_link ≠ ""
          · rw [if_pos hder] at h
            cases h
          · rw [if_neg hder] at h
            cases h
        · intro h
          exact absurd h hadm

/-- C10: the duplicate-link detector is symmetric — swapping the two URL
arguments never changes its verdict. -/
theorem c10_urls_are_same_file_symmetric (u1 u2 : String) :
    urls_are_same_file u1 u2 = urls_are_same_file u2 u1 := by
  unfold urls_are_same_file
  by_cases h1 : u1 = ""
  · simp [h1]
  · by_cases h2 : u2 = ""
    · simp [h1, h2]
    · rw [if_neg (not_or_intro h1 h2), if_neg (not_or_intro h2 h1)]
      by_cases hc : containsSub (pyUrlparse u1).path "attachment" = true ∧
          containsSub (pyUrlparse u2).path "attachment" = true ∧
          qs_get_id (pyUrlparse u1).query ≠ "" ∧
          qs_get_id (pyUrlparse u2).query ≠ "" ∧
          qs_get_id (pyUrlparse u1).query = qs_get_id (pyUrlparse u2).query
      · have hcs : containsSub (pyUrlparse u2).path "attachment" = true ∧
            containsSub (pyUrlparse u1).path "attachment" = true ∧
            qs_get_id (pyUrlparse u2).query ≠ "" ∧
            qs_get_id (pyUrlparse u1).query ≠ "" ∧
            qs_get_id (pyUrlparse u2).query = qs_get_id (pyUrlparse u1).query :=
          ⟨hc.2.1, hc.1, hc.2.2.2.1, hc.2.2.1, hc.2.2.2.2.symm⟩
        rw [if_pos hc, if_pos hcs]
      · have hcs : ¬(containsSub (pyUrlparse u2).path "attachment" = true ∧
            containsSub (pyUrlparse u1).path "attachment" = true ∧
            qs_get_id (pyUrlparse u2).query ≠ "" ∧
            qs_get_id (pyUrlparse u1).query ≠ "" ∧
            qs_get_id (pyUrlparse u2).query = qs_get_id (pyUrlparse u1).query) :=
          fun h => hc ⟨h.2.1, h.1, h.2.2.2.1, h.2.2.1, h.2.2.2.2.symm⟩
        rw [if_neg hc, if_neg hcs]
        by_cases hn : (pyUrlparse u1).netloc ++ (pyUrlparse u1).path =
            (pyUrlparse u2).netloc ++ (pyUrlparse u2).path
        · rw [if_pos hn, if_pos hn.symm]
        · have hns : ¬((pyUrlparse u2).netloc ++ (pyUrlparse u2).path =
              (pyUrlparse u1).netloc ++ (pyUrlparse u1).path) :=
            fun h => hn h.symm
          rw [if_neg hn, if_neg hns]

/-- C1 (amended): for two non-empty URLs whose parsed paths both hold an
attachment segment, the detector flags them as the same object if and only
if both carry the same non-empty id query parameter OR their
netloc-plus-path strings coincide; in particular attachment URLs differing
only in scheme or host letter-case with the same non-empty id are flagged
duplicate, and different ids are not flagged unless host and path
coincide. -/
theorem c1_amended_attachment_rule (u1 u2 : String) (h1 : u1 ≠ "") (h2 : u2 ≠ "")
    (ha1 : containsSub (pyUrlparse u1).path "attachment" = true)
    (ha2 : containsSub (pyUrlparse u2).path "attachment" = true) :
    urls_are_same_file u1 u2 = true ↔
      (qs_get_id (pyUrlparse u1).query ≠ "" ∧
        qs_get_id (pyUrlparse u1).query = qs_get_id (pyUrlparse u2).query) ∨
      (pyUrlparse u1).netloc ++ (pyUrlparse u1).path =
        (pyUrlparse u2).netloc ++ (pyUrlparse u2).path := by
  unfold urls_are_same_file
  rw [if_neg (not_or_intro h1 h2)]
  by_cases hid : qs_get_id (pyUrlparse u1).query ≠ "" ∧
      qs_get_id (pyUrlparse u1).query = qs_get_id (pyUrlparse u2).query
  · rw [if_pos ⟨ha1, ha2, hid.1, fun hq => hid.1 (hid.2.trans hq), hid.2⟩]
    exact iff_of_true rfl (Or.inl hid)
  · rw [if_neg (fun h => hid ⟨h.2.2.1, h.2.2.2.2⟩)]
    by_cases hn : (pyUrlparse u1).netloc ++ (pyUrlparse u1).path =
        (pyUrlparse u2).netloc ++ (pyUrlparse u2).path
    · rw [if_pos hn]
      exact iff_of_true rfl (Or.inr hn)
    · rw [if_neg hn]
      exact iff_of_false (by simp) (fun h => h.elim hid hn)

/-- C1 (witness): two attachment URLs differing only in scheme and host
letter-case but sharing the id Zz are flagged duplicate, via the amended
rule's first disjunct. -/
theorem c1_amended_attachment_rule_witness :
    urls_are_same_file "HTTPS://OpenReview.net/attachment?id=Zz"
      "https://openreview.net/attachment?id=Zz" = true :=
  (c1_amended_attachment_rule "HTTPS://OpenReview.net/attachment?id=Zz"
      "https://openreview.net/attachment?id=Zz"
      (by decide) (by decide) (by decide) (by decide)).mpr (Or.inl (by decide))

/-- C2 (amended): every record retained by _parse_table has a non-empty
forum_id or a non-empty openreview_link whose derived id (possibly empty)
became its forum_id — a row that yields no non-empty forum_id is kept by
the parser, not dropped; the fetch stage is what later skips records with
an empty forum_id. -/
theorem c2_amended_retained_key (headers : List String) (rows : List (List Cell))
    (r : Record) (hr : r ∈ parse_table headers rows) :
    r.forum_id ≠ "" ∨
      (r.openreview_link ≠ "" ∧ r.forum_id = derive_forum_id r.openreview_link) := by
  obtain ⟨cells, -, hc⟩ := List.mem_filterMap.mp hr
  unfold process_row at hc
  by_cases hcel : cells = []
  · rw [if_pos hcel] at hc
    cases hc
  · rw [if_neg hcel] at hc
    by_cases hadm : record_all_empty (build_record (headers.map map_header) cells) ∨
        ((build_record (headers.map map_header) cells).forum_id = "" ∧
          (build_record (headers.map map_header) cells).openreview_link = "")
    · rw [if_pos hadm] at hc
      cases hc
    · rw [if_neg hadm] at hc
      by_cases hder : (build_record (headers.map map_header) cells).forum_id = "" ∧
          (build_record (headers.map map_header) cells).openreview_link ≠ ""
      · rw [if_pos hder] at hc
        injection hc with hc
        subst hc
        right
        exact ⟨by simpa [set_field] using hder.2, by simp [set_field]⟩
      · rw [if_neg hder] at hc
        injection hc with hc
        subst hc
        left
        intro hfid
        rcases Decidable.em ((build_record (headers.map map_header) cells).openreview_link = "")
          with hl | hl
        · exact hadm (Or.inr ⟨hfid, hl⟩)
        · exact hder ⟨hfid, hl⟩

/-- C2 (witness): a table with a forum column carrying XYZ parses to a
record whose key is non-empty, via the amended invariant at that concrete
table. -/
theorem c2_amended_retained_key_witness :
    (⟨"XYZ", "", "", "", "", "", "", "", "", "", "", "", "", ""⟩ : Record).forum_id ≠ "" ∨
      ((⟨"XYZ", "", "", "", "", "", "", "", "", "", "", "", "", ""⟩ : Record).openreview_link ≠ "" ∧
        (⟨"XYZ", "", "", "", "", "", "", "", "", "", "", "", "", ""⟩ : Record).forum_id =
          derive_forum_id
            (⟨"XYZ", "", "", "", "", "", "", "", "", "", "", "", "", ""⟩ : Record).openreview_link) :=
  c2_amended_retained_key ["Forum"] [[⟨none, "XYZ"⟩]] _ (by decide)

/-- C3 (amended): for a URL not in SSH form, the normalizer returns not
recognized both when the parsed lowercased host does not contain
github.com and when the path has fewer than two non-empty segments; an
SSH-form URL is instead rejected only when the piece after its last colon
has fewer than two slash parts — its host is never checked (the
counterexample shows a non-GitHub SSH URL being accepted). -/
theorem c3_amended_not_recognized :
    (∀ url : String, pyStartsWith url "git@" = false → pyStartsWith url "ssh://git@" = false →
      containsSub (pyLower (norm_parsed url).netloc) "github.com" = false →
      normalize_github_repo_url url = none) ∧
    (∀ url : String, pyStartsWith url "git@" = false → pyStartsWith url "ssh://git@" = false →
      (norm_path_parts url).length < 2 →
      normalize_github_repo_url url = none) ∧
    (∀ url : String, (pyStartsWith url "git@" = true ∨ pyStartsWith url "ssh://git@" = true) →
      (ssh_repo_parts url).length < 2 →
      normalize_github_repo_url url = none) := by
  refine ⟨?_, ?_, ?_⟩
  · intro url hg hs hn
    unfold normalize_github_repo_url
    by_cases he : url = ""
    · simp [he]
    · simp [he, hg, hs, hn]
  · intro url hg hs hlen
    unfold normalize_github_repo_url
    by_cases he : url = ""
    · simp [he]
    · rcases hp : norm_path_parts url with - | ⟨a, - | ⟨b, t⟩⟩
      · simp [he, hg, hs, hp]
      · simp [he, hg, hs, hp]
      · rw [hp] at hlen
        simp at hlen
        omega
  · intro url hgs hlen
    unfold normalize_github_repo_url
    by_cases he : url = ""
    · simp [he]
    · have hcond : (pyStartsWith url "git@" || pyStartsWith url "ssh://git@") = true := by
        rcases hgs with h | h <;> simp [h]
      rw [if_neg he, if_pos hcond]
      by_cases hcol : containsSub url ":" = true
      · rw [if_pos hcol, if_neg (by omega)]
      · rw [if_neg hcol]

/-- C3 (witness): the amended rule at concrete inputs — a GitLab https
URL, a GitHub URL with a one-segment path, and an SSH URL with a
one-piece remainder are all not recognized. -/
theorem c3_amended_not_recognized_witness :
    normalize_github_repo_url "https://gitlab.com/owner/repo" = none ∧
    normalize_github_repo_url "https://github.com/owner" = none ∧
    normalize_github_repo_url "git@github.com:owner" = none :=
  ⟨c3_amended_not_recognized.1 "https://gitlab.com/owner/repo" (by decide) (by decide) (by decide),
   c3_amended_not_recognized.2.1 "https://github.com/owner" (by decide) (by decide) (by decide),
   c3_amended_not_recognized.2.2 "git@github.com:owner" (Or.inl (by decide)) (by decide)⟩

/-- C6 (amended): an existing artifact is never re-fetched or rewritten —
an existing supplementary file short-circuits to success with no events at
all; an existing PDF short-circuits to success with no events provided the
notes carry a downloadable PDF; an existing clone directory short-circuits
to success with no events provided the code link is non-empty, differs
from a non-empty supplementary link and is recognized; so a second run
over unchanged records performs zero additional network fetches or writes
for already-existing artifacts. -/
theorem c6_amended_existing_artifact_skip :
    (∀ (env : NetEnv) (anchors : List Anchor) (code_link : String),
      download_supplementary env true anchors code_link = ⟨true, [], FileState.complete⟩) ∧
    (∀ (env : NetEnv) (notes : List Note), (notes.find? pdf_truthy).isSome = true →
      download_pdf env true notes = ⟨true, [], FileState.complete⟩) ∧
    (∀ (outcome : CloneOutcome) (code_link supplementary_link : String),
      code_link ≠ "" → ¬(supplementary_link ≠ "" ∧ code_link = supplementary_link) →
      (normalize_github_repo_url code_link).isSome = true →
      clone_code_repo outcome true code_link supplementary_link =
        ⟨true, [], FileState.complete⟩) := by
  refine ⟨?_, ?_, ?_⟩
  · intro env anchors code_link
    rfl
  · intro env notes hfind
    obtain ⟨n, hn⟩ := Option.isSome_iff_exists.mp hfind
    have hne : notes ≠ [] := by
      rintro rfl
      simp [List.find?] at hn
    have hp : pdf_truthy n = true := List.find?_some hn
    have hid : ¬((note_pdf n).getD "" = "") := by
      intro hh
      unfold pdf_truthy at hp
      cases hnp : note_pdf n
      · rw [hnp] at hp
        cases hp
      · rw [hnp] at hp
        rw [hnp] at hh
        simp at hh
        simp [hh] at hp
    unfold download_pdf
    rw [if_neg hne, hn]
    simp only [Option.getD_some] at hid ⊢
    rw [if_neg hid]
    rfl
  · intro outcome code_link supplementary_link hcl hdup hnorm
    obtain ⟨repo, hr⟩ := Option.isSome_iff_exists.mp hnorm
    unfold clone_code_repo
    rw [if_neg hcl, if_neg hdup, hr]
    rfl

/-- C6 (witness): concrete instances of the three short-circuits — an
existing supplementary file, an existing PDF with a PDF-bearing note, and
an existing clone directory with a recognized distinct code link all
report success with no events. -/
theorem c6_amended_existing_artifact_skip_witness :
    download_supplementary ⟨true, true, true, false⟩ true [] "" =
      ⟨true, [], FileState.complete⟩ ∧
    download_pdf ⟨true, true, true, false⟩ true [⟨some [("pdf", "p1")]⟩] =
      ⟨true, [], FileState.complete⟩ ∧
    clone_code_repo CloneOutcome.ok true "https://github.com/o/r" "" =
      ⟨true, [], FileState.complete⟩ :=
  ⟨c6_amended_existing_artifact_skip.1 ⟨true, true, true, false⟩ [] "",
   c6_amended_existing_artifact_skip.2.1 ⟨true, true, true, false⟩
     [⟨some [("pdf", "p1")]⟩] (by decide),
   c6_amended_existing_artifact_skip.2.2 CloneOutcome.ok "https://github.com/o/r" ""
     (by decide) (by decide) (by decide)⟩

/-- C7: partial-write cleanup — a PDF download whose streamed write fails
ends with the partial file removed and the step reporting failure; a
supplementary download whose streamed write fails likewise ends with the
artifact absent; a clone that times out or errors ends with any partial
directory removed — so no partial artifact ever remains to satisfy a later
existence check. -/
theorem c7_failed_write_cleanup :
    (∀ (env : NetEnv) (notes : List Note), env.get_ok = true → env.write_ok = false →
      (notes.find? pdf_truthy).isSome = true →
      download_pdf env false notes = ⟨false, [.netGet, .fileWrite], FileState.absent⟩) ∧
    (∀ (env : NetEnv) (anchors : List Anchor) (code_link link : String),
      env.page_get_ok = true → env.get_ok = true → env.write_ok = false →
      find_supplementary_link anchors = some link →
      (code_link = "" ∨ urls_are_same_file (urljoin_openreview link) code_link = false) →
      download_supplementary env false anchors code_link =
        ⟨false, [.netGet, .netGet, .fileWrite], FileState.absent⟩) ∧
    (∀ (left_dir : Bool) (code_link supplementary_link : String),
      code_link ≠ "" → ¬(supplementary_link ≠ "" ∧ code_link = supplementary_link) →
      (normalize_github_repo_url code_link).isSome = true →
      clone_code_repo (.timeout left_dir) false code_link supplementary_link =
        ⟨false, [.gitClone], FileState.absent⟩ ∧
      clone_code_repo (.fail left_dir) false code_link supplementary_link =
        ⟨false, [.gitClone], FileState.absent⟩) := by
  refine ⟨?_, ?_, ?_⟩
  · intro env notes hget hwrite hfind
    obtain ⟨n, hn⟩ := Option.isSome_iff_exists.mp hfind
    have hne : notes ≠ [] := by
      rintro rfl
      simp [List.find?] at hn
    have hp : pdf_truthy n = true := List.find?_some hn
    have hid : ¬((note_pdf n).getD "" = "") := by
      intro hh
      unfold pdf_truthy at hp
      cases hnp : note_pdf n
      · rw [hnp] at hp
        cases hp
      · rw [hnp] at hp
        rw [hnp] at hh
        simp at hh
        simp [hh] at hp
    unfold download_pdf
    rw [if_neg hne, hn]
    simp only [Option.getD_some] at hid ⊢
    rw [if_neg hid]
    simp only [Bool.false_eq_true, if_false, hget, hwrite, Bool.not_true]
    cases hcf : env.crash_left_file <;> simp [hcf]
  · intro env anchors code_link link hpage hget hwrite hlink hdup
    have hnd : ¬(code_link ≠ "" ∧
        urls_are_same_file (urljoin_openreview link) code_link = true) := by
      rintro ⟨hne, hsame⟩
      rcases hdup with h | h
      · exact hne h
      · rw [h] at hsame
        cases hsame
    unfold download_supplementary
    rw [hlink]
    simp only [hpage, Bool.not_true, Bool.false_eq_true, if_false]
    rw [if_neg hnd]
    simp only [hget, hwrite, Bool.not_true, Bool.false_eq_true, if_false]
    cases hcf : env.crash_left_file <;> simp [hcf]
  · intro left_dir code_link supplementary_link hcl hdup hnorm
    obtain ⟨repo, hr⟩ := Option.isSome_iff_exists.mp hnorm
    constructor
    · unfold clone_code_repo
      rw [if_neg hcl, if_neg hdup, hr]
      cases left_dir <;> rfl
    · unfold clone_code_repo
      rw [if_neg hcl, if_neg hdup, hr]
      cases left_dir <;> rfl

/-- C7 (witness): concrete failing writes — a PDF stream and a
supplementary stream that error mid-write, and a timed-out clone that left
a partial directory — all end with the artifact absent and failure
reported. -/
theorem c7_failed_write_cleanup_witness :
    download_pdf ⟨true, true, false, true⟩ false [⟨some [("pdf", "p1")]⟩] =
      ⟨false, [.netGet, .fileWrite], FileState.absent⟩ ∧
    download_supplementary ⟨true, true, false, true⟩ false
      [⟨"/attachment?id=X", "supplementary zip"⟩] "" =
      ⟨false, [.netGet, .netGet, .fileWrite], FileState.absent⟩ ∧
    clone_code_repo (.timeout true) false "https://github.com/o/r" "" =
      ⟨false, [.gitClone], FileState.absent⟩ :=
  ⟨c7_failed_write_cleanup.1 ⟨true, true, false, true⟩ [⟨some [("pdf", "p1")]⟩]
     rfl rfl (by decide),
   c7_failed_write_cleanup.2.1 ⟨true, true, false, true⟩
     [⟨"/attachment?id=X", "supplementary zip"⟩] "" "/attachment?id=X"
     rfl rfl rfl (by decide) (Or.inl rfl),
   (c7_failed_write_cleanup.2.2 true "https://github.com/o/r" ""
     (by decide) (by decide) (by decide)).1⟩

end Agent4Science
